import Mathlib

/-
Verification of the filter-and-aggregate query layer of the UP dropout
dashboard (src/app.py).  Records are rows of the dropout CSV; SQL queries
built by the script are embedded as pure functions over lists of records:
a WHERE clause becomes List.filter, COUNT(*) becomes List.length,
SUM(CASE WHEN c THEN 1 ELSE 0 END) becomes the length of the filtered list,
and GROUP BY f with COUNT(*) becomes a (key, count) list over the distinct
keys.  Fallible sites (Python expressions that can raise) return Option,
with none standing for the raised exception.
-/

/-- One row of Master_UP_Dropout_Database.csv, restricted to the columns the
embedded queries read (src/app.py builds every query from these literal
column names). -/
structure Record where
  studentName : String
  academicYear : String
  districtName : String
  blockName : String
  lastSchoolName : String
  schoolCategory : String
  schoolManagement : String
  educationLevel : String
  gender : String
deriving Repr, DecidableEq

/-- COUNT(*) over a WHERE-filtered table, and also the value of
SUM(CASE WHEN p THEN 1 ELSE 0 END): the number of rows satisfying p. -/
def count_where (rows : List Record) (p : Record → Bool) : Nat :=
  (rows.filter p).length

/-- SELECT f, COUNT(*) ... GROUP BY f: one (key, count) pair per distinct
value of f among the rows (src/app.py lines 1108-1114, 1350-1368 etc.). -/
def group_count (subset : List Record) (f : Record → String) : List (String × Nat) :=
  ((subset.map f).dedup).map (fun k => (k, (subset.map f).count k))

/-- str(g).upper(): uppercase each character. -/
def py_upper (s : String) : String :=
  String.mk (s.data.map Char.toUpper)

/-- The membership test of detect_gender_values for the female role
(src/app.py line 188): str(g).upper() in [FEMALE, F, GIRL]. -/
def is_female_literal (g : String) : Bool :=
  ["FEMALE", "F", "GIRL"].contains (py_upper g)

/-- The membership test of detect_gender_values for the male role
(src/app.py line 189): str(g).upper() in [MALE, M, BOY]. -/
def is_male_literal (g : String) : Bool :=
  ["MALE", "M", "BOY"].contains (py_upper g)

/-- SELECT DISTINCT Gender FROM csv LIMIT 10 (src/app.py line 186), over the
embedded table: distinct gender values in first-encounter order, capped at
10. -/
def distinct_genders (D : List Record) : List String :=
  ((D.map (fun r => r.gender)).dedup).take 10

/-- detect_gender_values (src/app.py lines 183-192): the first distinct
value matching the female patterns (default FEMALE when none does), paired
with the first matching the male patterns (default MALE). -/
def detect_gender_values (gender_vals : List String) : String × String :=
  ((gender_vals.find? is_female_literal).getD "FEMALE",
   (gender_vals.find? is_male_literal).getD "MALE")

/-- Round to nearest integer, halves to even: Python round on an exact
rational. -/
def py_round_half_even (q : ℚ) : ℤ :=
  if q - ⌊q⌋ < 1 / 2 then ⌊q⌋
  else if 1 / 2 < q - ⌊q⌋ then ⌊q⌋ + 1
  else if ⌊q⌋ % 2 = 0 then ⌊q⌋ else ⌊q⌋ + 1

/-- Python round(x, 2). -/
def py_round2 (x : ℚ) : ℚ :=
  (py_round_half_even (x * 100) : ℚ) / 100

/-- calculate_dropout_rate (src/app.py lines 211-215):
round(dropouts / total_enrolled * 100, 2) if total_enrolled > 0 else 0. -/
def calculate_dropout_rate (dropouts total_enrolled : ℚ) : ℚ :=
  if 0 < total_enrolled then py_round2 (dropouts / total_enrolled * 100) else 0

/-- SUM(CASE WHEN p THEN 1 ELSE 0 END) as SQL evaluates it: NULL (none)
over an empty row set, otherwise the number of rows satisfying p. -/
def sql_sum_case (rows : List Record) (p : Record → Bool) : Option Nat :=
  if rows.isEmpty then none else some (count_where rows p)

/-- The seven aggregates of the Home tab all_query / year_query
(src/app.py lines 655-705): COUNT(*) plus six CASE sums.  The gender sums
compare against the fixed literals FEMALE and MALE exactly as the SQL text
does (lines 658-659, 683-684). -/
structure HomeStats where
  total : Nat
  girls : Nat
  boys : Nat
  primary : Nat
  upper_primary : Nat
  secondary : Nat
  sr_secondary : Nat
deriving Repr, DecidableEq

/-- The SELECT list shared by all_query and year_query, evaluated over a
row set. -/
def home_stats_of (rows : List Record) : HomeStats :=
  { total := rows.length
    girls := count_where rows (fun r => r.gender == "FEMALE")
    boys := count_where rows (fun r => r.gender == "MALE")
    primary := count_where rows (fun r => r.educationLevel == "Primary (1-5)")
    upper_primary := count_where rows (fun r => r.educationLevel == "Upper Primary (6-8)")
    secondary := count_where rows (fun r => r.educationLevel == "Secondary (9-10)")
    sr_secondary := count_where rows (fun r => r.educationLevel == "Sr. Secondary (11-12)") }

/-- The zeroed statistics assigned when the year query returns no rows
(src/app.py lines 707-708). -/
def zero_home_stats : HomeStats :=
  { total := 0, girls := 0, boys := 0, primary := 0, upper_primary := 0
    secondary := 0, sr_secondary := 0 }

/-- Home tab statistics (src/app.py lines 653-708): all_query over the full
table when the year selector is All, otherwise year_query with
WHERE academicYear = selected_year, falling back to zeros when that year
has no rows. -/
def home_stats (selected_year : String) (D : List Record) : HomeStats :=
  if selected_year == "All" then home_stats_of D
  else
    let year_rows := D.filter (fun r => r.academicYear == selected_year)
    if 0 < year_rows.length then home_stats_of year_rows else zero_home_stats

/-- The Home tab gender donut query (src/app.py lines 1108-1114):
SELECT Gender, COUNT(*) WHERE academicYear = selected_year GROUP BY Gender.
Unlike lines 653-708 there is no branch on the All sentinel: the selector
value is interpolated into the WHERE clause unconditionally. -/
def gender_query (selected_year : String) (D : List Record) : List (String × Nat) :=
  group_count (D.filter (fun r => r.academicYear == selected_year)) (fun r => r.gender)

/-- The District tab subset (src/app.py lines 1525-1539):
WHERE districtName = selected_district AND academicYear = district_year. -/
def district_subset (selected_district district_year : String) (D : List Record) : List Record :=
  D.filter (fun r => r.districtName == selected_district && r.academicYear == district_year)

/-- The District tab quick statistics (src/app.py lines 1525-1545),
restricted to the row count and the two gender aggregates: district_query
computes COUNT(*) (0 on an empty subset) and SUM(CASE ...) per gender (SQL
NULL on an empty subset), and lines 1543-1545 apply int() to each value.
int() of the NaN that a NULL aggregate lands as raises ValueError: none
models that raised exception, so the statistics come out only when the
subset is nonempty. -/
def district_stats (selected_district district_year : String) (D : List Record) :
    Option (Nat × Nat × Nat) :=
  let subset := district_subset selected_district district_year D
  match sql_sum_case subset (fun r => r.gender == "FEMALE"),
        sql_sum_case subset (fun r => r.gender == "MALE") with
  | some female, some male => some (subset.length, female, male)
  | _, _ => none

/-- girls_pct (src/app.py line 1593): female_dropouts / total_dropouts *
100, computed from the District tab statistics; it runs only when the
int() conversions at lines 1543-1545 succeeded, and none propagates their
ValueError. -/
def district_girls_pct (selected_district district_year : String) (D : List Record) :
    Option ℚ :=
  match district_stats selected_district district_year D with
  | some (total, female, _) => some ((female : ℚ) / (total : ℚ) * 100)
  | none => none

/-- boys_pct (src/app.py line 1594), same shape as girls_pct. -/
def district_boys_pct (selected_district district_year : String) (D : List Record) :
    Option ℚ :=
  match district_stats selected_district district_year D with
  | some (total, _, male) => some ((male : ℚ) / (total : ℚ) * 100)
  | none => none

/-- The Block tab subset (src/app.py lines 1927-1953): district and block
equality, plus the year unless the year selector is All. -/
def block_subset (district block year : String) (D : List Record) : List Record :=
  if year == "All" then
    D.filter (fun r => r.districtName == district && r.blockName == block)
  else
    D.filter (fun r => r.districtName == district && r.blockName == block &&
      r.academicYear == year)

/-- The female_count aggregate of block_query (src/app.py lines 1930, 1943):
SUM(CASE WHEN Gender = FEMALE_VALUE THEN 1 ELSE 0 END) over the block
subset, where FEMALE_VALUE is the detected literal. -/
def block_female_count (FEMALE_VALUE district block year : String) (D : List Record) : Nat :=
  count_where (block_subset district block year D) (fun r => r.gender == FEMALE_VALUE)

/-- The custom report girls summary (src/app.py line 3207):
len(filtered_report_df[Gender == FEMALE_VALUE]). -/
def report_girls_count (FEMALE_VALUE : String) (report : List Record) : Nat :=
  count_where report (fun r => r.gender == FEMALE_VALUE)

/-- overall_score (src/app.py lines 2064-2080): the Block Performance
Scorecard value, a step function of the total dropout count of the block. -/
def overall_score (total_students : Nat) : Nat :=
  if total_students < 1000 then 90
  else if total_students < 3000 then 70
  else if total_students < 5000 then 50
  else 30

/-- The raw multiselect values feeding the Generate Custom Report builder
(src/app.py lines 3040-3104). -/
structure ReportSelections where
  report_years : List String
  report_districts : List String
  report_gender : List String
  report_edu_level : List String
  report_category : List String
  report_management : List String
deriving Repr, DecidableEq

/-- One entry of the conditions list (src/app.py lines 3140-3170): a column
selector together with the IN-list of accepted values. -/
def Condition : Type := (Record → String) × List String

/-- column IN (values): the meaning of one appended condition string. -/
def matches_condition (c : Condition) (r : Record) : Bool :=
  c.2.contains (c.1 r)

/-- The AND-joined where_clause (src/app.py line 3173); an empty conditions
list is the clause 1=1, which every row satisfies. -/
def matches_where (conds : List Condition) (r : Record) : Bool :=
  conds.all (fun c => matches_condition c r)

/-- The conditions list built at src/app.py lines 3140-3170: the year list
is used whenever nonempty, and each of the other five fields contributes an
IN-condition only when its selection is nonempty and does not contain the
All sentinel. -/
def build_conditions (s : ReportSelections) : List Condition :=
  (if s.report_years ≠ [] then
    [((fun r => r.academicYear), s.report_years)] else [])
  ++ (if "All" ∉ s.report_districts ∧ s.report_districts ≠ [] then
    [((fun r => r.districtName), s.report_districts)] else [])
  ++ (if "All" ∉ s.report_gender ∧ s.report_gender ≠ [] then
    [((fun r => r.gender), s.report_gender)] else [])
  ++ (if "All" ∉ s.report_edu_level ∧ s.report_edu_level ≠ [] then
    [((fun r => r.educationLevel), s.report_edu_level)] else [])
  ++ (if "All" ∉ s.report_category ∧ s.report_category ≠ [] then
    [((fun r => r.schoolCategory), s.report_category)] else [])
  ++ (if "All" ∉ s.report_management ∧ s.report_management ≠ [] then
    [((fun r => r.schoolManagement), s.report_management)] else [])

/-- SELECT * FROM csv WHERE where_clause (src/app.py line 3176). -/
def run_custom_report (D : List Record) (s : ReportSelections) : List Record :=
  D.filter (matches_where (build_conditions s))

/-- The mutable streamlit session state of the script (src/app.py lines
227-231): the active tab index and the selected school. -/
structure SessionState where
  active_tab : Nat
  selected_school_for_detail : Option String
deriving Repr, DecidableEq

/-- The Generate Custom Report evaluation with the session state in scope:
the code between src/app.py lines 3136 and 3177 builds the query from the
multiselect values alone and never reads st.session_state, so the state
argument is unused. -/
def run_custom_report_session (_sess : SessionState) (D : List Record)
    (s : ReportSelections) : List Record :=
  run_custom_report D s

/-- The values the Home tab except branch assigns (src/app.py lines
763-769): every statistic shown below the spinner. -/
structure HomeTabView where
  total_dropouts : Nat
  total_girls : Nat
  total_boys : Nat
  overall_dropout_rate : ℚ
  girls_dropout_rate : ℚ
  boys_dropout_rate : ℚ
  edu_levels : List (String × Nat)
  high_risk_blocks_count : Nat
  is_data_pending : Bool
deriving Repr, DecidableEq

/-- The zeroed view assigned inside the except branch (src/app.py lines
765-769). -/
def zero_home_view : HomeTabView :=
  { total_dropouts := 0, total_girls := 0, total_boys := 0
    overall_dropout_rate := 0, girls_dropout_rate := 0, boys_dropout_rate := 0
    edu_levels := [("Primary (1-5)", 0), ("Upper Primary (6-8)", 0),
      ("Secondary (9-10)", 0), ("Sr. Secondary (11-12)", 0)]
    high_risk_blocks_count := 0, is_data_pending := false }

/-- The try/except around the Home tab statistics (src/app.py lines
652-769).  The argument is the outcome of running the queries, error
carrying the text of the raised exception.  The result is the view that is
rendered, the message passed to st.error (none when no error is shown),
and whether st.stop() is called, halting the script; the except branch at
lines 763-769 shows one message built from the raised exception, assigns
zeros, and falls through to the rendering at line 771 without stopping. -/
def home_except_handler (res : Except String HomeTabView) :
    HomeTabView × Option String × Bool :=
  match res with
  | Except.ok v => (v, none, false)
  | Except.error e => (zero_home_view, some ("❌ Error: " ++ e), false)

/-- A 2023-24 row with the gender literal FEMALE, used as concrete data. -/
def r2023F : Record :=
  { studentName := "A", academicYear := "2023-24", districtName := "Agra"
    blockName := "B1", lastSchoolName := "S1", schoolCategory := "1-Primary"
    schoolManagement := "Govt", educationLevel := "Primary (1-5)", gender := "FEMALE" }

/-- A one-row dataset whose only academic year is 2023-24. -/
def sampleD0 : List Record := [r2023F]

/-- A row whose gender literal is the short form F. -/
def rShortF : Record :=
  { studentName := "B", academicYear := "2023-24", districtName := "Agra"
    blockName := "B1", lastSchoolName := "S1", schoolCategory := "1-Primary"
    schoolManagement := "Govt", educationLevel := "Primary (1-5)", gender := "F" }

/-- A row whose gender literal is the short form M. -/
def rShortM : Record :=
  { studentName := "C", academicYear := "2023-24", districtName := "Agra"
    blockName := "B1", lastSchoolName := "S1", schoolCategory := "1-Primary"
    schoolManagement := "Govt", educationLevel := "Primary (1-5)", gender := "M" }

/-- A dataset that encodes gender as F and M only. -/
def sampleD1 : List Record := [rShortF, rShortM]

/-- Selections whose district multiselect is the default [All], all other
fields unconstrained. -/
def sel_all_districts : ReportSelections :=
  { report_years := [], report_districts := ["All"], report_gender := []
    report_edu_level := [], report_category := [], report_management := [] }

/-- The same selections with the district multiselect emptied. -/
def sel_no_districts : ReportSelections :=
  { report_years := [], report_districts := [], report_gender := []
    report_edu_level := [], report_category := [], report_management := [] }

/-- Selections with the All sentinel chosen in every sentinel-capable
multiselect (the default state of the report builder). -/
def sel_all_everything : ReportSelections :=
  { report_years := [], report_districts := ["All"], report_gender := ["All"]
    report_edu_level := ["All"], report_category := ["All"], report_management := ["All"] }

lemma list_find_female_FM (vals : List String)
    (hall : ∀ v ∈ vals, v = "F" ∨ v = "M") (hF : "F" ∈ vals) :
    vals.find? is_female_literal = some "F" := by
  induction vals with
  | nil => simp at hF
  | cons v tl ih =>
    rcases hall v (List.mem_cons_self v tl) with rfl | rfl
    · rw [List.find?_cons_of_pos _ (by decide)]
    · rw [List.find?_cons_of_neg _ (by decide)]
      refine ih (fun w hw => hall w (List.mem_cons_of_mem _ hw)) ?_
      rcases List.mem_cons.mp hF with h | h
      · exact absurd h (by decide)
      · exact h

lemma list_find_male_FM (vals : List String)
    (hall : ∀ v ∈ vals, v = "F" ∨ v = "M") (hM : "M" ∈ vals) :
    vals.find? is_male_literal = some "M" := by
  induction vals with
  | nil => simp at hM
  | cons v tl ih =>
    rcases hall v (List.mem_cons_self v tl) with rfl | rfl
    · rw [List.find?_cons_of_neg _ (by decide)]
      refine ih (fun w hw => hall w (List.mem_cons_of_mem _ hw)) ?_
      rcases List.mem_cons.mp hM with h | h
      · exact absurd h (by decide)
      · exact h
    · rw [List.find?_cons_of_pos _ (by decide)]

/-- C3: detect_gender_values maps the logical roles to whichever literals
occur among the distinct Gender values: on data whose only literals are F
and M it classifies F as the female role and M as the male role, and when
no value matches a rolewise pattern it falls back to the defaults FEMALE
and MALE. -/
theorem detect_gender_values_roles :
    (∀ vals : List String, (∀ v ∈ vals, v = "F" ∨ v = "M") → "F" ∈ vals → "M" ∈ vals →
      detect_gender_values vals = ("F", "M")) ∧
    (∀ vals : List String, (∀ v ∈ vals, is_female_literal v = false) →
      (detect_gender_values vals).1 = "FEMALE") ∧
    (∀ vals : List String, (∀ v ∈ vals, is_male_literal v = false) →
      (detect_gender_values vals).2 = "MALE") := by
  refine ⟨?_, ?_, ?_⟩
  · intro vals hall hF hM
    unfold detect_gender_values
    rw [list_find_female_FM vals hall hF, list_find_male_FM vals hall hM]
    rfl
  · intro vals h
    have hnone : vals.find? is_female_literal = none :=
      List.find?_eq_none.mpr (fun x hx => by simp [h x hx])
    simp [detect_gender_values, hnone]
  · intro vals h
    have hnone : vals.find? is_male_literal = none :=
      List.find?_eq_none.mpr (fun x hx => by simp [h x hx])
    simp [detect_gender_values, hnone]

/-- Witness for C3: detection on the concrete value lists of the scenario. -/
theorem detect_gender_values_roles_witness :
    detect_gender_values ["F", "M"] = ("F", "M") ∧
    (detect_gender_values []).1 = "FEMALE" ∧ (detect_gender_values []).2 = "MALE" :=
  ⟨detect_gender_values_roles.1 ["F", "M"] (by decide) (by decide) (by decide),
   detect_gender_values_roles.2.1 [] (by simp),
   detect_gender_values_roles.2.2 [] (by simp)⟩

/-- C10: the Block Performance Scorecard overall score is the step function
of the total dropout count with values 90 below 1000, 70 on [1000, 3000),
50 on [3000, 5000) and 30 from 5000 on, and is monotonically non-increasing
in the count. -/
theorem overall_score_step :
    (∀ n, n < 1000 → overall_score n = 90) ∧
    (∀ n, 1000 ≤ n → n < 3000 → overall_score n = 70) ∧
    (∀ n, 3000 ≤ n → n < 5000 → overall_score n = 50) ∧
    (∀ n, 5000 ≤ n → overall_score n = 30) ∧
    (∀ a b, a ≤ b → overall_score b ≤ overall_score a) := by
  refine ⟨?_, ?_, ?_, ?_, ?_⟩
  · intro n h
    simp [overall_score, h]
  · intro n h1 h2
    unfold overall_score
    rw [if_neg (by omega), if_pos h2]
  · intro n h1 h2
    unfold overall_score
    rw [if_neg (by omega), if_neg (by omega), if_pos h2]
  · intro n h
    unfold overall_score
    rw [if_neg (by omega), if_neg (by omega), if_neg (by omega)]
  · intro a b hab
    unfold overall_score
    split_ifs <;> omega

/-- Witness for C10: the four plateaus at their boundaries and one
monotonicity instance. -/
theorem overall_score_step_witness :
    overall_score 999 = 90 ∧ overall_score 1000 = 70 ∧ overall_score 3000 = 50 ∧
    overall_score 5000 = 30 ∧ overall_score 42 ≤ overall_score 7 :=
  ⟨overall_score_step.1 999 (by norm_num),
   overall_score_step.2.1 1000 (by norm_num) (by norm_num),
   overall_score_step.2.2.1 3000 (by norm_num) (by norm_num),
   overall_score_step.2.2.2.1 5000 (by norm_num),
   overall_score_step.2.2.2.2 7 42 (by norm_num)⟩

/-- C6: the per-group counts of a GROUP BY query sum to the row count of
the grouped subset, for every subset and grouping field: no record is
double-counted and none is dropped. -/
theorem group_count_sums_to_total (subset : List Record) (f : Record → String) :
    ((group_count subset f).map Prod.snd).sum = subset.length := by
  unfold group_count
  rw [List.map_map]
  have h : (Prod.snd ∘ fun k => (k, (subset.map f).count k)) =
      fun k => (subset.map f).count k := rfl
  rw [h, List.sum_map_count_dedup_eq_length, List.length_map]

/-- C5: the conditions of the custom report where_clause combine with AND,
so a report over the concatenation of two condition lists never matches
more rows than either list alone. -/
theorem where_clause_and_monotone (D : List Record) (c1 c2 : List Condition) :
    (D.filter (matches_where (c1 ++ c2))).length ≤
      min (D.filter (matches_where c1)).length (D.filter (matches_where c2)).length := by
  refine le_min ?_ ?_
  · refine List.Sublist.length_le (List.monotone_filter_right D ?_)
    intro r h
    simp only [matches_where, List.all_append, Bool.and_eq_true] at h
    exact h.1
  · refine List.Sublist.length_le (List.monotone_filter_right D ?_)
    intro r h
    simp only [matches_where, List.all_append, Bool.and_eq_true] at h
    exact h.2

/-- C8: the custom report evaluation is deterministic and side-effect-free:
its result does not depend on the mutable session state, and it returns a
sublist of the dataset, fabricating no record. -/
theorem custom_report_state_independent_subset (sess1 sess2 : SessionState)
    (D : List Record) (s : ReportSelections) :
    run_custom_report_session sess1 D s = run_custom_report_session sess2 D s ∧
    List.Sublist (run_custom_report_session sess1 D s) D :=
  ⟨rfl, List.filter_sublist _⟩

/-- Counterexample for C1: on a one-row dataset dated 2023-24, choosing the
All sentinel in the Home tab year selector makes the gender donut query
compare the literal string All against the Academic Year column and return
no groups, while omitting the constraint returns the FEMALE group: the
sentinel does impose a constraint at this call site. -/
theorem gender_query_matches_all_literal :
    gender_query "All" sampleD0 = [] ∧
    group_count sampleD0 (fun r => r.gender) = [("FEMALE", 1)] := by
  decide

/-- C1 amended: in the Generate Custom Report builder a selection
containing the All sentinel is equivalent to an emptied selection for each
sentinel-capable field, an all-empty specification returns the whole
dataset, and the literal All is never compared with the data there; the
Home tab gender chart query, however, interpolates the year selection
without such a check. -/
theorem report_all_or_empty_no_constraint (D : List Record) (s : ReportSelections) :
    ("All" ∈ s.report_districts →
      run_custom_report D s = run_custom_report D { s with report_districts := [] }) ∧
    ("All" ∈ s.report_gender →
      run_custom_report D s = run_custom_report D { s with report_gender := [] }) ∧
    ("All" ∈ s.report_edu_level →
      run_custom_report D s = run_custom_report D { s with report_edu_level := [] }) ∧
    ("All" ∈ s.report_category →
      run_custom_report D s = run_custom_report D { s with report_category := [] }) ∧
    ("All" ∈ s.report_management →
      run_custom_report D s = run_custom_report D { s with report_management := [] }) ∧
    run_custom_report D sel_no_districts = D := by
  refine ⟨?_, ?_, ?_, ?_, ?_, ?_⟩
  · intro h
    simp [run_custom_report, build_conditions, h]
  · intro h
    simp [run_custom_report, build_conditions, h]
  · intro h
    simp [run_custom_report, build_conditions, h]
  · intro h
    simp [run_custom_report, build_conditions, h]
  · intro h
    simp [run_custom_report, build_conditions, h]
  · simp [run_custom_report, build_conditions, sel_no_districts, matches_where]

/-- Witness for C1: the five sentinel equivalences instantiated on concrete
data and the default all-sentinel selections. -/
theorem report_all_or_empty_no_constraint_witness :
    run_custom_report sampleD0 sel_all_everything =
      run_custom_report sampleD0 { sel_all_everything with report_districts := [] } ∧
    run_custom_report sampleD0 sel_all_everything =
      run_custom_report sampleD0 { sel_all_everything with report_gender := [] } ∧
    run_custom_report sampleD0 sel_all_everything =
      run_custom_report sampleD0 { sel_all_everything with report_edu_level := [] } ∧
    run_custom_report sampleD0 sel_all_everything =
      run_custom_report sampleD0 { sel_all_everything with report_category := [] } ∧
    run_custom_report sampleD0 sel_all_everything =
      run_custom_report sampleD0 { sel_all_everything with report_management := [] } :=
  ⟨(report_all_or_empty_no_constraint sampleD0 sel_all_everything).1 (by decide),
   (report_all_or_empty_no_constraint sampleD0 sel_all_everything).2.1 (by decide),
   (report_all_or_empty_no_constraint sampleD0 sel_all_everything).2.2.1 (by decide),
   (report_all_or_empty_no_constraint sampleD0 sel_all_everything).2.2.2.1 (by decide),
   (report_all_or_empty_no_constraint sampleD0 sel_all_everything).2.2.2.2.1 (by decide)⟩

/-- Counterexample for C2: selecting the district Kanpur on the District
tab against a dataset whose only row is in Agra yields an empty subset
with count 0; the SUM aggregates of district_query are SQL NULL there, so
the int() conversions at src/app.py lines 1543-1545 raise ValueError (the
none results) and no zero-valued statistics or percentages are produced:
the zero-match scenario raises instead of yielding count 0, percentage 0. -/
theorem district_empty_subset_int_raises :
    (district_subset "Kanpur" "2023-24" sampleD0).length = 0 ∧
    district_stats "Kanpur" "2023-24" sampleD0 = none ∧
    district_girls_pct "Kanpur" "2023-24" sampleD0 = none ∧
    district_boys_pct "Kanpur" "2023-24" sampleD0 = none := by
  decide

/-- C2 amended: the helper calculate_dropout_rate does return 0 whenever
the denominator is not positive, never dividing by zero; but a District
tab selection matching zero records does not yield a zero-valued result:
its SUM aggregates are SQL NULL, the int() conversions raise, and the
gender percentages are never produced, while whenever the statistics do
come out the subset was nonempty, so the unguarded divisions at lines
1593-1594 always see a denominator of at least 1. -/
theorem calculate_dropout_rate_zero_safe :
    (∀ d t : ℚ, t ≤ 0 → calculate_dropout_rate d t = 0) ∧
    (∀ dist y : String, ∀ D : List Record, district_subset dist y D = [] →
      district_stats dist y D = none ∧ district_girls_pct dist y D = none ∧
        district_boys_pct dist y D = none) ∧
    (∀ dist y : String, ∀ D : List Record, ∀ t f m : Nat,
      district_stats dist y D = some (t, f, m) → 1 ≤ t) := by
  refine ⟨?_, ?_, ?_⟩
  · intro d t h
    unfold calculate_dropout_rate
    rw [if_neg (not_lt.mpr h)]
  · intro dist y D h
    refine ⟨?_, ?_, ?_⟩ <;>
      simp [district_stats, district_girls_pct, district_boys_pct, sql_sum_case, h]
  · intro dist y D t f m hsome
    unfold district_stats at hsome
    cases hsub : district_subset dist y D with
    | nil => rw [hsub] at hsome; simp [sql_sum_case] at hsome
    | cons a l =>
      rw [hsub] at hsome
      simp [sql_sum_case] at hsome
      omega

/-- Witness for C2: the zero-denominator policy of the helper, the raising
empty-subset pipeline, and a nonempty subset whose extracted total is at
least 1, all at concrete inputs. -/
theorem calculate_dropout_rate_zero_safe_witness :
    calculate_dropout_rate 5 0 = 0 ∧
    district_girls_pct "Kanpur" "2023-24" sampleD0 = none ∧
    (1 : Nat) ≤ 1 :=
  ⟨calculate_dropout_rate_zero_safe.1 5 0 le_rfl,
   (calculate_dropout_rate_zero_safe.2.1 "Kanpur" "2023-24" sampleD0 (by decide)).2.1,
   calculate_dropout_rate_zero_safe.2.2 "Agra" "2023-24" sampleD0 1 1 0 (by decide)⟩

/-- Counterexample for C4: on a dataset encoding gender as F and M, role
detection maps the female role to F, yet the Home tab girls and boys sums,
which compare against the fixed literals FEMALE and MALE, both count 0 out
of 2 rows, while counting against the detected literal finds the 1 girl. -/
theorem home_query_hardcoded_literal_miscounts :
    (home_stats "All" sampleD1).total = 2 ∧
    (home_stats "All" sampleD1).girls = 0 ∧
    (home_stats "All" sampleD1).boys = 0 ∧
    report_girls_count (detect_gender_values (distinct_genders sampleD1)).1 sampleD1 = 1 := by
  decide

/-- C4 amended: the Block Analysis and Generate Custom Report gender
aggregates compare the Gender field against the detected literals, but the
Home tab and District tab summary queries hard-code FEMALE and MALE, so on
any dataset whose gender literals are F and M the Home girls count is 0
while the detected-literal count equals the number of F rows. -/
theorem gender_aggregates_literal_split (D : List Record)
    (hall : ∀ r ∈ D, r.gender = "F" ∨ r.gender = "M")
    (hf : "F" ∈ D.map (fun r => r.gender)) :
    (home_stats "All" D).girls = 0 ∧
    report_girls_count (detect_gender_values (distinct_genders D)).1 D =
      count_where D (fun r => r.gender == "F") := by
  constructor
  · have hnil : D.filter (fun r => r.gender == "FEMALE") = [] := by
      apply List.filter_eq_nil_iff.mpr
      intro r hr
      rcases hall r hr with h | h <;> simp [h]
    simp [home_stats, home_stats_of, count_where, hnil]
  · have hsub : (D.map (fun r => r.gender)).dedup ⊆ ["F", "M"] := by
      intro x hx
      rcases List.mem_map.mp (List.mem_dedup.mp hx) with ⟨r, hr, rfl⟩
      rcases hall r hr with h | h <;> simp [h]
    have hlen : (D.map (fun r => r.gender)).dedup.length ≤ 2 := by
      have := (List.subperm_of_subset
        (List.nodup_dedup (D.map (fun r => r.gender))) hsub).length_le
      simpa using this
    have htake : distinct_genders D = (D.map (fun r => r.gender)).dedup := by
      unfold distinct_genders
      exact List.take_of_length_le (le_trans hlen (by norm_num))
    have hfind : ((D.map (fun r => r.gender)).dedup).find? is_female_literal = some "F" := by
      apply list_find_female_FM
      · intro v hv
        rcases List.mem_map.mp (List.mem_dedup.mp hv) with ⟨r, hr, rfl⟩
        exact hall r hr
      · exact List.mem_dedup.mpr hf
    have hdet : (detect_gender_values (distinct_genders D)).1 = "F" := by
      simp [detect_gender_values, htake, hfind]
    rw [hdet]
    rfl

/-- Witness for C4: the amended statement applied to the concrete F/M
dataset. -/
theorem gender_aggregates_literal_split_witness :
    (home_stats "All" sampleD1).girls = 0 ∧
    report_girls_count (detect_gender_values (distinct_genders sampleD1)).1 sampleD1 =
      count_where sampleD1 (fun r => r.gender == "F") :=
  gender_aggregates_literal_split sampleD1 (by decide) (by decide)

/-- Counterexample for C9: when the Home tab statistics queries fail (for
example because a referenced column is absent from the schema), the except
branch emits the single propagated engine message, substitutes zeroed
statistics, and the halt flag is false: rendering continues, no batched
enumeration of missing fields is produced, and evaluation is not halted. -/
theorem home_error_zeroes_and_continues :
    home_except_handler
        (Except.error "Binder Error: Referenced column Gender not found") =
      (zero_home_view,
       some "❌ Error: Binder Error: Referenced column Gender not found",
       false) := by
  rfl

/-- C9 amended: the Home tab statistics are wrapped in one generic
try/except; on any query failure the handler shows a single message built
from the raised exception text, assigns zeroed statistics, and control
falls through to the rendering below without halting, while a successful
run passes the computed view through unchanged. -/
theorem home_except_handler_behavior (e : String) (v : HomeTabView) :
    home_except_handler (Except.error e) =
      (zero_home_view, some ("❌ Error: " ++ e), false) ∧
    home_except_handler (Except.ok v) = (v, none, false) :=
  ⟨rfl, rfl⟩
